import Mathlib

/-!
Shallow embedding of the VacationBookingAPI reservation, property, auth and
validation logic (Node/Express + Sequelize, MySQL store).

Timestamps (`arrivalTime`, `departureTime`) are DATE columns compared with
`<` / `>` by the store and with `new Date(x) <= new Date(y)` in the handlers;
both are total numeric comparisons on the underlying epoch value, so they are
modelled as `Int`. Record ids are auto-increment integers, modelled as `Nat`.
The persistent store is modelled as the list of reservation rows plus the
next auto-increment id; each route handler is a pure function from the store
(and the decoded caller identity attached by the auth middleware) to a
result and an updated store.
-/

namespace VacationBooking

/-- A row of the Reservation table (sequelize.js: id, arrivalTime,
departureTime, plus the `PropertyId` and `UserId` foreign keys added by the
`belongsTo` associations). -/
structure Reservation where
  id : Nat
  PropertyId : Nat
  UserId : Nat
  arrivalTime : Int
  departureTime : Int
  deriving DecidableEq, Repr

/-- The reservation table together with the auto-increment counter. -/
structure Store where
  reservations : List Reservation
  nextId : Nat
  deriving DecidableEq, Repr

def Store.empty : Store := { reservations := [], nextId := 1 }

/-- The JSON body accepted by POST /reservations.  The handler destructures
only `propertyId`, `arrivalTime`, `departureTime`; `bodyUserId` stands for an
owner/UserId field a client may also send, which the handler never reads. -/
structure ReservationBody where
  propertyId : Nat
  arrivalTime : Int
  departureTime : Int
  bodyUserId : Option Nat
  deriving DecidableEq, Repr

/-- The `where` clause of the overlap query in routes/reservations.js:
`propertyId, arrivalTime: { [Op.lt]: departureTime }, departureTime:
{ [Op.gt]: arrivalTime }` — matches rows of the given property whose
interval strictly overlaps the requested one. -/
def conflictsWith (propertyId : Nat) (arrivalTime departureTime : Int)
    (r : Reservation) : Bool :=
  r.PropertyId == propertyId
    && decide (r.arrivalTime < departureTime)
    && decide (r.departureTime > arrivalTime)

inductive PostResult where
  /-- HTTP 400, `departureTime must be after arrivalTime.` -/
  | rangeInvalid
  /-- HTTP 400, `The property is already booked for the requested dates.` -/
  | bookingConflict
  /-- HTTP 201 with the created row. -/
  | created (r : Reservation)
  deriving DecidableEq, Repr

/-- `router.post('/')` of routes/reservations.js (after authenticateJWT has
attached `callerUserId` and validateReservation has passed): reject inverted
ranges, reject when the overlap query returns any row, otherwise create the
row stamped with the caller's id. -/
def postReservation (s : Store) (callerUserId : Nat) (body : ReservationBody) :
    PostResult × Store :=
  if body.departureTime ≤ body.arrivalTime then
    (PostResult.rangeInvalid, s)
  else
    let existingReservations := s.reservations.filter
      (conflictsWith body.propertyId body.arrivalTime body.departureTime)
    if existingReservations.length > 0 then
      (PostResult.bookingConflict, s)
    else
      let reservation : Reservation :=
        { id := s.nextId
          PropertyId := body.propertyId
          UserId := callerUserId
          arrivalTime := body.arrivalTime
          departureTime := body.departureTime }
      (PostResult.created reservation,
       { reservations := s.reservations ++ [reservation], nextId := s.nextId + 1 })

/-- `Reservation.findAll({ where: { UserId: req.user.userId } })` of
`router.get('/')`. -/
def listReservations (s : Store) (callerUserId : Nat) : List Reservation :=
  s.reservations.filter (fun r => r.UserId == callerUserId)

/-- `Reservation.findByPk(id)`. -/
def findByPk (s : Store) (id : Nat) : Option Reservation :=
  s.reservations.find? (fun r => r.id == id)

inductive GetResult where
  | notFound
  | found (r : Reservation)
  deriving DecidableEq, Repr

/-- `router.get('/:id')`: look the row up by primary key; the decoded caller
attached by authenticateJWT is never consulted. -/
def getReservation (s : Store) (callerUserId : Nat) (rid : Nat) : GetResult :=
  match findByPk s rid with
  | none => GetResult.notFound
  | some reservation => GetResult.found reservation

/-- The JSON body accepted by PUT /reservations/:id.  The handler
destructures only `arrivalTime` and `departureTime`; `propertyId` stands for
a propertyId field a client may also send, which the handler never reads. -/
structure UpdateBody where
  propertyId : Option Nat
  arrivalTime : Int
  departureTime : Int
  deriving DecidableEq, Repr

inductive PutResult where
  /-- HTTP 404, `Reservation not found.` -/
  | notFound
  /-- HTTP 400, `departureTime must be after arrivalTime.` -/
  | rangeInvalid
  /-- HTTP 400, `The property is already booked for the requested dates.` -/
  | bookingConflict
  /-- HTTP 200 with the updated row. -/
  | updated (r : Reservation)
  deriving DecidableEq, Repr

/-- `router.put('/:id')` of routes/reservations.js: find the row, reject
inverted ranges, run the overlap query against the STORED row's PropertyId
with `id: { [Op.ne]: reservation.id }`, then update only the two time
fields.  The decoded caller is never consulted. -/
def putReservation (s : Store) (callerUserId : Nat) (rid : Nat)
    (body : UpdateBody) : PutResult × Store :=
  match findByPk s rid with
  | none => (PutResult.notFound, s)
  | some reservation =>
    if body.departureTime ≤ body.arrivalTime then
      (PutResult.rangeInvalid, s)
    else
      let existingReservations := s.reservations.filter (fun r =>
        conflictsWith reservation.PropertyId body.arrivalTime body.departureTime r
          && r.id != reservation.id)
      if existingReservations.length > 0 then
        (PutResult.bookingConflict, s)
      else
        let updatedRow : Reservation :=
          { reservation with
              arrivalTime := body.arrivalTime
              departureTime := body.departureTime }
        (PutResult.updated updatedRow,
         { s with reservations :=
             s.reservations.map (fun r => if r.id == reservation.id then updatedRow else r) })

inductive DeleteResult where
  | notFound
  | deleted
  deriving DecidableEq, Repr

/-- `router.delete('/:id')`: find the row by primary key and destroy it.
The decoded caller is never consulted. -/
def deleteReservation (s : Store) (callerUserId : Nat) (rid : Nat) :
    DeleteResult × Store :=
  match findByPk s rid with
  | none => (DeleteResult.notFound, s)
  | some reservation =>
    (DeleteResult.deleted,
     { s with reservations := s.reservations.filter (fun r => !(r.id == reservation.id)) })

/-- Outcome of a bearer-protected route: either the middleware rejects the
request with a status and error message before the handler runs, or control
passes to the handler with the decoded user id. -/
inductive AuthOutcome (α : Type) where
  | rejected (status : Nat) (error : String)
  | handled (a : α)
  deriving DecidableEq, Repr

/-- middleware/authenticateJWT.js.  Header values are modelled as their
character sequences (`List Char`).  `verifyToken` stands for
`jwt.verify(token, process.env.JWT_SECRET)` (opaque crypto): `none` when
verification throws (malformed, bad signature, expired), `some userId` for
the decoded subject.  The JS guard is `!authHeader ||
!authHeader.startsWith('Bearer ')`; the JS strips the token with
`authHeader.replace('Bearer ', '')`, which replaces the first occurrence,
and the `startsWith` guard pins that occurrence to the 7-character prefix,
so it is `drop 7`. -/
def authenticateJWT {α : Type} (verifyToken : List Char → Option Nat)
    (authHeader : Option (List Char)) (handler : Nat → α) : AuthOutcome α :=
  match authHeader with
  | none => AuthOutcome.rejected 401 "Access denied. No token provided."
  | some h =>
    if !("Bearer ".toList.isPrefixOf h) then
      AuthOutcome.rejected 401 "Access denied. No token provided."
    else
      match verifyToken (h.drop 7) with
      | none => AuthOutcome.rejected 400 "Invalid token."
      | some userId => AuthOutcome.handled (handler userId)

/-- Matches the /[A-Z]/ test of the password chain in
middleware/middleware.js. -/
def isUppercaseLetter (c : Char) : Bool := 'A' ≤ c && c ≤ 'Z'

/-- Matches the /[a-z]/ test of the password chain. -/
def isLowercaseLetter (c : Char) : Bool := 'a' ≤ c && c ≤ 'z'

/-- Matches the special-character class of the password chain, literally
the characters of the regex (braces written with hex escapes). -/
def isSpecialChar (c : Char) : Bool :=
  c == '!' || c == '@' || c == '#' || c == '$' || c == '%' || c == '^'
    || c == '&' || c == '*' || c == '(' || c == ')' || c == ','
    || c == '.' || c == '?' || c == '\"' || c == ':' || c == '\x7b'
    || c == '\x7d' || c == '|' || c == '<' || c == '>'

/-- The password checks of `validateUser` in middleware/middleware.js:
express-validator runs every validator of the chain and collects all
failure messages (no short-circuit). -/
def passwordErrors (password : String) : List String :=
  (if password.length < 10 then
     ["Password must be at least 10 characters long"] else [])
  ++ (if password.toList.any isUppercaseLetter then []
      else ["Password must contain at least one uppercase letter"])
  ++ (if password.toList.any isLowercaseLetter then []
      else ["Password must contain at least one lowercase letter"])
  ++ (if password.toList.any isSpecialChar then []
      else ["Password must contain at least one special character"])

/-- A row of the Property table.  `price` is FLOAT in the source; the
claims only involve its ordering under `<`/ORDER BY, so it is modelled as
an integer number of currency subunits, order-isomorphic to the non-NaN
floats the validator admits (price must be a positive number). -/
structure Property where
  id : Nat
  name : String
  address : String
  city : String
  price : Int
  capacity : Nat
  deriving DecidableEq, Repr

/-- `router.get('/')` of routes/properties.js (the version with filters,
sorting and paging): filter on `capacity` when the query parameter is
present, ORDER BY price (the JS guard `sort && (sort === 'asc' || sort ===
'desc')` makes the direction descending exactly when sort === 'desc' and
ascending otherwise, including the default), then `limit: 6, offset: page *
6` where `page` is the parsed offset parameter defaulting to 0.  ORDER BY
is modelled by insertion sort with the corresponding total order on
price. -/
def getProperties (props : List Property) (capacity : Option Nat)
    (sort : Option String) (offset : Option Nat) : List Property :=
  let filtered : List Property := match capacity with
    | some c => props.filter (fun p => p.capacity == c)
    | none => props
  let ordered :=
    if sort = some "desc" then
      filtered.insertionSort (fun a b : Property => b.price ≤ a.price)
    else
      filtered.insertionSort (fun a b : Property => a.price ≤ b.price)
  let page := offset.getD 0
  (ordered.drop (page * 6)).take 6

theorem conflictsWith_eq_true_iff (pid : Nat) (a d : Int) (r : Reservation) :
    conflictsWith pid a d r = true ↔
      r.PropertyId = pid ∧ r.arrivalTime < d ∧ a < r.departureTime := by
  simp [conflictsWith, and_assoc]

/-- C6: GET /reservations returns exactly the reservations whose UserId
equals the authenticated caller's user id; listing as user A never includes
a reservation owned by any other user. -/
theorem listReservations_exactly_callers (s : Store) (uid : Nat) (r : Reservation) :
    r ∈ listReservations s uid ↔ r ∈ s.reservations ∧ r.UserId = uid := by
  simp [listReservations, List.mem_filter]

/-- C9: the per-id reservation routes GET/PUT/DELETE /reservations/:id never
consult the authenticated caller: any two callers get the same outcome on the
same store, so any authenticated user can read, update or delete another
user's reservation. -/
theorem perIdRoutes_ignore_caller (s : Store) (rid callerA callerB : Nat)
    (body : UpdateBody) :
    getReservation s callerA rid = getReservation s callerB rid ∧
    putReservation s callerA rid body = putReservation s callerB rid body ∧
    deleteReservation s callerA rid = deleteReservation s callerB rid :=
  ⟨rfl, rfl, rfl⟩

/-- C3 (amended): a create request with departureTime ≤ arrivalTime always
fails with RangeInvalid and leaves the store unchanged, whatever the store
holds; an update request with departureTime ≤ arrivalTime does so as well
provided the target reservation exists (otherwise the route answers 404
NotFound before the range check). -/
theorem rangeInvalid_rejects :
    (∀ (s : Store) (caller : Nat) (body : ReservationBody),
       body.departureTime ≤ body.arrivalTime →
       postReservation s caller body = (PostResult.rangeInvalid, s)) ∧
    (∀ (s : Store) (caller rid : Nat) (body : UpdateBody) (r : Reservation),
       findByPk s rid = some r →
       body.departureTime ≤ body.arrivalTime →
       putReservation s caller rid body = (PutResult.rangeInvalid, s)) := by
  constructor
  · intro s caller body h
    simp [postReservation, h]
  · intro s caller rid body r hfind h
    simp [putReservation, hfind, h]

/-- C3 counterexample: an update request whose range is inverted
(departureTime 3 ≤ arrivalTime 5) addressed to an id that does not exist
answers NotFound, not RangeInvalid, refuting «fails with RangeInvalid
regardless of the state of the store». -/
theorem rangeInvalid_put_counterexample :
    (3 : Int) ≤ (5 : Int) ∧
    (putReservation Store.empty 1 1
        { propertyId := none, arrivalTime := 5, departureTime := 3 }).fst
      = PutResult.notFound ∧
    (putReservation Store.empty 1 1
        { propertyId := none, arrivalTime := 5, departureTime := 3 }).fst
      ≠ PutResult.rangeInvalid := by
  decide

/-- C3 witness: concrete instances of both conjuncts of the amended claim. -/
theorem rangeInvalid_rejects_witness :
    postReservation Store.empty 1 { propertyId := 1, arrivalTime := 5, departureTime := 3, bodyUserId := none }
      = (PostResult.rangeInvalid, Store.empty) ∧
    putReservation { reservations := [{ id := 1, PropertyId := 1, UserId := 1, arrivalTime := 0, departureTime := 10 }], nextId := 2 } 1 1
        { propertyId := none, arrivalTime := 5, departureTime := 3 }
      = (PutResult.rangeInvalid,
         { reservations := [{ id := 1, PropertyId := 1, UserId := 1, arrivalTime := 0, departureTime := 10 }], nextId := 2 }) :=
  ⟨rangeInvalid_rejects.1 Store.empty 1 _ (by decide),
   rangeInvalid_rejects.2 _ 1 1 _
     { id := 1, PropertyId := 1, UserId := 1, arrivalTime := 0, departureTime := 10 }
     (by decide) (by decide)⟩

/-- C7: the created reservation's UserId always equals the authenticated
caller's id, and the outcome of POST /reservations is unchanged by any
owner/UserId field a client puts in the body. -/
theorem post_stamps_caller_identity :
    (∀ (s : Store) (caller pid : Nat) (a d : Int) (u1 u2 : Option Nat),
       postReservation s caller
           { propertyId := pid, arrivalTime := a, departureTime := d, bodyUserId := u1 }
         = postReservation s caller
           { propertyId := pid, arrivalTime := a, departureTime := d, bodyUserId := u2 }) ∧
    (∀ (s : Store) (caller : Nat) (body : ReservationBody) (r : Reservation) (s' : Store),
       postReservation s caller body = (PostResult.created r, s') → r.UserId = caller) := by
  constructor
  · intro s caller pid a d u1 u2
    rfl
  · intro s caller body r s' h
    unfold postReservation at h
    by_cases h1 : body.departureTime ≤ body.arrivalTime
    · simp [h1] at h
    · simp only [if_neg h1] at h
      by_cases h2 : 0 < (s.reservations.filter
          (conflictsWith body.propertyId body.arrivalTime body.departureTime)).length
      · simp [h2] at h
      · simp [h2] at h
        obtain ⟨hr, -⟩ := h
        rw [← hr]

/-- C7 witness: a concrete successful creation stamped with caller id 7. -/
theorem post_stamps_caller_identity_witness :
    ({ id := 1, PropertyId := 2, UserId := 7, arrivalTime := 0, departureTime := 5 } : Reservation).UserId = 7 :=
  post_stamps_caller_identity.2 Store.empty 7
    { propertyId := 2, arrivalTime := 0, departureTime := 5, bodyUserId := some 99 }
    { id := 1, PropertyId := 2, UserId := 7, arrivalTime := 0, departureTime := 5 }
    { reservations := [{ id := 1, PropertyId := 2, UserId := 7, arrivalTime := 0, departureTime := 5 }], nextId := 2 }
    (by decide)

/-- C1 (amended): for create requests whose range is valid (arrivalTime <
departureTime), POST /reservations fails with BookingConflict — leaving the
store unchanged — exactly when some existing reservation of the same
property satisfies existing.arrivalTime < newDeparture and
existing.departureTime > newArrival (strict inequalities); back-to-back
reservations sharing a boundary on the same property both succeed.  (When
departureTime ≤ arrivalTime the route answers RangeInvalid before the
overlap query, even if an overlapping reservation exists.) -/
theorem post_conflict_iff_overlap :
    (∀ (s : Store) (caller : Nat) (body : ReservationBody),
       body.arrivalTime < body.departureTime →
       ((postReservation s caller body).fst = PostResult.bookingConflict ↔
         ∃ r ∈ s.reservations, r.PropertyId = body.propertyId ∧
           r.arrivalTime < body.departureTime ∧ body.arrivalTime < r.departureTime)) ∧
    (∀ (s : Store) (caller : Nat) (body : ReservationBody),
       (postReservation s caller body).fst = PostResult.bookingConflict →
       (postReservation s caller body).snd = s) ∧
    (∀ (caller pid : Nat) (u : Option Nat) (a m d : Int), a < m → m < d →
       (∃ r1, (postReservation Store.empty caller
           { propertyId := pid, arrivalTime := a, departureTime := m, bodyUserId := u }).fst
         = PostResult.created r1) ∧
       (∃ r2, (postReservation
           (postReservation Store.empty caller
             { propertyId := pid, arrivalTime := a, departureTime := m, bodyUserId := u }).snd
           caller
           { propertyId := pid, arrivalTime := m, departureTime := d, bodyUserId := u }).fst
         = PostResult.created r2)) := by
  refine ⟨?_, ?_, ?_⟩
  · intro s caller body h
    have h1 : ¬ body.departureTime ≤ body.arrivalTime := not_le.mpr h
    by_cases h2 : 0 < (s.reservations.filter
        (conflictsWith body.propertyId body.arrivalTime body.departureTime)).length
    · simp only [postReservation, if_neg h1, if_pos h2]
      constructor
      · intro _
        obtain ⟨x, hx⟩ := List.exists_mem_of_ne_nil _ (List.length_pos.mp h2)
        rw [List.mem_filter] at hx
        exact ⟨x, hx.1, (conflictsWith_eq_true_iff _ _ _ _).mp hx.2⟩
      · intro _
        trivial
    · simp only [postReservation, if_neg h1, if_neg h2]
      constructor
      · intro hc
        simp at hc
      · rintro ⟨x, hxmem, hxprop⟩
        exact absurd (List.length_pos_of_mem (List.mem_filter.mpr
          ⟨hxmem, (conflictsWith_eq_true_iff _ _ _ _).mpr hxprop⟩)) h2
  · intro s caller body h
    by_cases h1 : body.departureTime ≤ body.arrivalTime
    · simp [postReservation, h1]
    · by_cases h2 : 0 < (s.reservations.filter
          (conflictsWith body.propertyId body.arrivalTime body.departureTime)).length
      · simp [postReservation, h1, h2]
      · simp [postReservation, h1, h2] at h
  · intro caller pid u a m d h1 h2
    have e1 : postReservation Store.empty caller
        { propertyId := pid, arrivalTime := a, departureTime := m, bodyUserId := u } =
        (PostResult.created
           { id := 1, PropertyId := pid, UserId := caller, arrivalTime := a, departureTime := m },
         { reservations :=
             [{ id := 1, PropertyId := pid, UserId := caller, arrivalTime := a, departureTime := m }],
           nextId := 2 }) := by
      simp [postReservation, Store.empty, not_le.mpr h1]
    constructor
    · exact ⟨_, by rw [e1]⟩
    · refine ⟨{ id := 2, PropertyId := pid, UserId := caller, arrivalTime := m, departureTime := d }, ?_⟩
      rw [e1]
      have hc : conflictsWith pid m d
          { id := 1, PropertyId := pid, UserId := caller, arrivalTime := a, departureTime := m } = false := by
        simp [conflictsWith, lt_irrefl]
      simp [postReservation, not_le.mpr h2, hc]

/-- C1 counterexample: with an existing reservation [0, 10) on property 1,
a request for [5, 5) satisfies the overlap predicate (0 < 5 and 10 > 5) yet
the route answers RangeInvalid, not BookingConflict, refuting the unrestricted
«fails with BookingConflict iff an overlapping reservation exists». -/
theorem post_conflict_iff_counterexample :
    (∃ r ∈ ({ reservations := [{ id := 1, PropertyId := 1, UserId := 1, arrivalTime := 0, departureTime := 10 }], nextId := 2 } : Store).reservations,
        r.PropertyId = 1 ∧ r.arrivalTime < (5 : Int) ∧ (5 : Int) < r.departureTime) ∧
    (postReservation { reservations := [{ id := 1, PropertyId := 1, UserId := 1, arrivalTime := 0, departureTime := 10 }], nextId := 2 } 3
        { propertyId := 1, arrivalTime := 5, departureTime := 5, bodyUserId := none }).fst
      ≠ PostResult.bookingConflict := by
  decide

/-- C1 witness: a concrete conflict detected through the iff, and concrete
back-to-back reservations [0, 5) and [5, 9) both created. -/
theorem post_conflict_iff_overlap_witness :
    ((postReservation { reservations := [{ id := 1, PropertyId := 1, UserId := 1, arrivalTime := 0, departureTime := 10 }], nextId := 2 } 3
        { propertyId := 1, arrivalTime := 5, departureTime := 6, bodyUserId := none }).fst
       = PostResult.bookingConflict ↔
     ∃ r ∈ ({ reservations := [{ id := 1, PropertyId := 1, UserId := 1, arrivalTime := 0, departureTime := 10 }], nextId := 2 } : Store).reservations,
         r.PropertyId = 1 ∧ r.arrivalTime < (6 : Int) ∧ (5 : Int) < r.departureTime) ∧
    (∃ r2, (postReservation
        (postReservation Store.empty 3
          { propertyId := 1, arrivalTime := 0, departureTime := 5, bodyUserId := none }).snd 3
        { propertyId := 1, arrivalTime := 5, departureTime := 9, bodyUserId := none }).fst
      = PostResult.created r2) :=
  ⟨post_conflict_iff_overlap.1 _ 3 _ (by decide),
   (post_conflict_iff_overlap.2.2 3 1 none 0 5 9 (by decide) (by decide)).2⟩

/-- C2: updating a reservation excludes itself from the overlap check: when
the target exists, the new range is valid, and no OTHER reservation of the
same property overlaps the new range, the update succeeds — even when the
new range overlaps the target's own previous range. -/
theorem put_excludes_self (s : Store) (caller rid : Nat) (body : UpdateBody)
    (r : Reservation)
    (hfind : findByPk s rid = some r)
    (hrange : body.arrivalTime < body.departureTime)
    (hothers : ∀ x ∈ s.reservations, x.id ≠ r.id →
       ¬(x.PropertyId = r.PropertyId ∧ x.arrivalTime < body.departureTime ∧
         body.arrivalTime < x.departureTime)) :
    ∃ r', (putReservation s caller rid body).fst = PutResult.updated r' := by
  have h1 : ¬ body.departureTime ≤ body.arrivalTime := not_le.mpr hrange
  have hfilter : s.reservations.filter (fun x =>
      conflictsWith r.PropertyId body.arrivalTime body.departureTime x
        && x.id != r.id) = [] := by
    rw [List.filter_eq_nil_iff]
    intro x hx hcontra
    rw [Bool.and_eq_true, bne_iff_ne] at hcontra
    exact hothers x hx hcontra.2 ((conflictsWith_eq_true_iff _ _ _ _).mp hcontra.1)
  refine ⟨{ r with arrivalTime := body.arrivalTime, departureTime := body.departureTime }, ?_⟩
  simp [putReservation, hfind, h1, hfilter]

/-- C2 witness: reservation 1 = [0, 10) on property 1 is resized to [5, 15),
overlapping its own old range, while reservation 2 = [20, 30) on the same
property does not conflict; the update succeeds. -/
theorem put_excludes_self_witness :
    ∃ r', (putReservation
        { reservations :=
            [{ id := 1, PropertyId := 1, UserId := 1, arrivalTime := 0, departureTime := 10 },
             { id := 2, PropertyId := 1, UserId := 2, arrivalTime := 20, departureTime := 30 }],
          nextId := 3 } 9 1
        { propertyId := none, arrivalTime := 5, departureTime := 15 }).fst
      = PutResult.updated r' :=
  put_excludes_self _ 9 1 _
    { id := 1, PropertyId := 1, UserId := 1, arrivalTime := 0, departureTime := 10 }
    (by decide) (by decide) (by decide)

/-- C10: a successful PUT /reservations/:id changes only the two time
fields of the target row: its id, PropertyId and UserId are those of the
stored row, every other stored reservation is kept, and the outcome is
unchanged by any propertyId field a client puts in the body (the overlap
query uses the STORED row's PropertyId). -/
theorem put_frame_conditions :
    (∀ (s : Store) (caller rid : Nat) (a d : Int) (p1 p2 : Option Nat),
       putReservation s caller rid { propertyId := p1, arrivalTime := a, departureTime := d }
         = putReservation s caller rid { propertyId := p2, arrivalTime := a, departureTime := d }) ∧
    (∀ (s : Store) (caller rid : Nat) (body : UpdateBody) (r' : Reservation) (s' : Store),
       putReservation s caller rid body = (PutResult.updated r', s') →
       ∃ r, findByPk s rid = some r ∧ r'.id = r.id ∧ r'.PropertyId = r.PropertyId ∧
         r'.UserId = r.UserId ∧ r'.arrivalTime = body.arrivalTime ∧
         r'.departureTime = body.departureTime ∧
         ∀ x ∈ s.reservations, x.id ≠ r.id → x ∈ s'.reservations) := by
  constructor
  · intro _ _ _ _ _ _ _
    rfl
  · intro s caller rid body r' s' h
    cases hfind : findByPk s rid with
    | none => simp [putReservation, hfind] at h
    | some r =>
      refine ⟨r, rfl, ?_⟩
      by_cases h1 : body.departureTime ≤ body.arrivalTime
      · simp [putReservation, hfind, h1] at h
      · by_cases h2 : 0 < (s.reservations.filter (fun x =>
            conflictsWith r.PropertyId body.arrivalTime body.departureTime x
              && x.id != r.id)).length
        · simp [putReservation, hfind, h1, h2] at h
        · simp [putReservation, hfind, h1, h2] at h
          obtain ⟨hr', hs'⟩ := h
          subst hr'
          refine ⟨rfl, rfl, rfl, rfl, rfl, ?_⟩
          intro x hx hne
          rw [← hs']
          exact List.mem_map.mpr ⟨x, hx, by simp [hne]⟩

/-- C10 witness: resizing reservation 1 with a body that also carries
propertyId 42 keeps its id, PropertyId and UserId, sets the new times, and
keeps reservation 2. -/
theorem put_frame_conditions_witness :
    ∃ r, findByPk { reservations := [{ id := 1, PropertyId := 1, UserId := 1, arrivalTime := 0, departureTime := 10 }, { id := 2, PropertyId := 1, UserId := 2, arrivalTime := 20, departureTime := 30 }], nextId := 3 } 1 = some r ∧
      ({ id := 1, PropertyId := 1, UserId := 1, arrivalTime := 5, departureTime := 15 } : Reservation).id = r.id ∧
      ({ id := 1, PropertyId := 1, UserId := 1, arrivalTime := 5, departureTime := 15 } : Reservation).PropertyId = r.PropertyId ∧
      ({ id := 1, PropertyId := 1, UserId := 1, arrivalTime := 5, departureTime := 15 } : Reservation).UserId = r.UserId ∧
      ({ id := 1, PropertyId := 1, UserId := 1, arrivalTime := 5, departureTime := 15 } : Reservation).arrivalTime
        = ({ propertyId := some 42, arrivalTime := 5, departureTime := 15 } : UpdateBody).arrivalTime ∧
      ({ id := 1, PropertyId := 1, UserId := 1, arrivalTime := 5, departureTime := 15 } : Reservation).departureTime
        = ({ propertyId := some 42, arrivalTime := 5, departureTime := 15 } : UpdateBody).departureTime ∧
      ∀ x ∈ ({ reservations := [{ id := 1, PropertyId := 1, UserId := 1, arrivalTime := 0, departureTime := 10 }, { id := 2, PropertyId := 1, UserId := 2, arrivalTime := 20, departureTime := 30 }], nextId := 3 } : Store).reservations, x.id ≠ r.id →
        x ∈ ({ reservations := [{ id := 1, PropertyId := 1, UserId := 1, arrivalTime := 5, departureTime := 15 }, { id := 2, PropertyId := 1, UserId := 2, arrivalTime := 20, departureTime := 30 }], nextId := 3 } : Store).reservations :=
  put_frame_conditions.2
    { reservations :=
        [{ id := 1, PropertyId := 1, UserId := 1, arrivalTime := 0, departureTime := 10 },
         { id := 2, PropertyId := 1, UserId := 2, arrivalTime := 20, departureTime := 30 }],
      nextId := 3 } 9 1
    { propertyId := some 42, arrivalTime := 5, departureTime := 15 }
    { id := 1, PropertyId := 1, UserId := 1, arrivalTime := 5, departureTime := 15 }
    { reservations :=
        [{ id := 1, PropertyId := 1, UserId := 1, arrivalTime := 5, departureTime := 15 },
         { id := 2, PropertyId := 1, UserId := 2, arrivalTime := 20, departureTime := 30 }],
      nextId := 3 }
    (by decide)

/-- C5: on a bearer-protected route, a missing Authorization header or one
that does not start with `Bearer ` is rejected with status 401 before any
handler runs, and a Bearer header whose token fails verification is rejected
with status 400 before any handler runs; both outcomes are independent of
the handler. -/
theorem authenticateJWT_gate {α : Type} (verifyToken : List Char → Option Nat)
    (handler : Nat → α) :
    (∀ authHeader : Option (List Char),
       (authHeader = none ∨
         ∃ h, authHeader = some h ∧ "Bearer ".toList.isPrefixOf h = false) →
       authenticateJWT verifyToken authHeader handler
         = AuthOutcome.rejected 401 "Access denied. No token provided.") ∧
    (∀ h : List Char, "Bearer ".toList.isPrefixOf h = true →
       verifyToken (h.drop 7) = none →
       authenticateJWT verifyToken (some h) handler
         = AuthOutcome.rejected 400 "Invalid token.") := by
  constructor
  · rintro _ (rfl | ⟨h, rfl, hb⟩)
    · rfl
    · simp only [authenticateJWT, Bool.not_eq_true']
      rw [if_pos]
      rw [hb]
  · intro h hb hv
    simp [authenticateJWT, hv]
    exact List.isPrefixOf_iff_prefix.mp hb

/-- C5 witness: a missing header and a Basic header are rejected 401, a
Bearer header with an unverifiable token is rejected 400. -/
theorem authenticateJWT_gate_witness :
    authenticateJWT (fun _ => none) (none : Option (List Char)) (fun n : Nat => n)
      = AuthOutcome.rejected 401 "Access denied. No token provided." ∧
    authenticateJWT (fun _ => none) (some "Basic abc".toList) (fun n : Nat => n)
      = AuthOutcome.rejected 401 "Access denied. No token provided." ∧
    authenticateJWT (fun _ => none) (some "Bearer abc".toList) (fun n : Nat => n)
      = AuthOutcome.rejected 400 "Invalid token." :=
  ⟨(authenticateJWT_gate _ _).1 none (Or.inl rfl),
   (authenticateJWT_gate _ _).1 (some "Basic abc".toList) (Or.inr ⟨_, rfl, by decide⟩),
   (authenticateJWT_gate _ _).2 "Bearer abc".toList (by decide) rfl⟩

/-- C8: the signup password checks accept a password exactly when it has
length at least 10 and contains an uppercase letter, a lowercase letter and
a special character; "short1!" fails with the minimum-length message among
its errors, "LongEnough1!" passes all password checks. -/
theorem password_complexity :
    (∀ p : String, passwordErrors p = [] ↔
       (10 ≤ p.length ∧ (∃ c ∈ p.toList, isUppercaseLetter c = true)
         ∧ (∃ c ∈ p.toList, isLowercaseLetter c = true)
         ∧ (∃ c ∈ p.toList, isSpecialChar c = true))) ∧
    "Password must be at least 10 characters long" ∈ passwordErrors "short1!" ∧
    passwordErrors "LongEnough1!" = [] := by
  refine ⟨?_, ?_, ?_⟩
  · intro p
    simp [passwordErrors, List.any_eq_true, not_lt, List.append_eq_nil]
  · decide
  · decide

/-- C4: GET /properties with a capacity filter, a sort direction and an
offset returns only properties of the requested capacity taken from the
store, at most 6 of them, ordered by price descending when sort=desc and
ascending otherwise (the default). -/
theorem properties_filter_sort_page (props : List Property) (c : Nat)
    (sortParam : Option String) (offsetParam : Option Nat) :
    (∀ p ∈ getProperties props (some c) sortParam offsetParam,
       p ∈ props ∧ p.capacity = c) ∧
    (getProperties props (some c) sortParam offsetParam).length ≤ 6 ∧
    (sortParam = some "desc" →
       (getProperties props (some c) sortParam offsetParam).Sorted
         (fun a b => b.price ≤ a.price)) ∧
    (sortParam ≠ some "desc" →
       (getProperties props (some c) sortParam offsetParam).Sorted
         (fun a b => a.price ≤ b.price)) := by
  by_cases hs : sortParam = some "desc"
  · haveI : IsTotal Property (fun a b : Property => b.price ≤ a.price) :=
      ⟨fun a b => le_total b.price a.price⟩
    haveI : IsTrans Property (fun a b : Property => b.price ≤ a.price) :=
      ⟨fun _ _ _ h1 h2 => le_trans h2 h1⟩
    have hred : getProperties props (some c) sortParam offsetParam =
        (((props.filter (fun p => p.capacity == c)).insertionSort
            (fun a b : Property => b.price ≤ a.price)).drop
          ((offsetParam.getD 0) * 6)).take 6 := by
      simp [getProperties, hs]
    rw [hred]
    refine ⟨?_, List.length_take_le _ _, fun _ => ?_, fun hns => absurd hs hns⟩
    · intro p hp
      have hmem := ((List.take_sublist _ _).trans (List.drop_sublist _ _)).subset hp
      rw [List.mem_insertionSort, List.mem_filter] at hmem
      exact ⟨hmem.1, by simpa using hmem.2⟩
    · exact (List.sorted_insertionSort _ _).sublist
        ((List.take_sublist _ _).trans (List.drop_sublist _ _))
  · haveI : IsTotal Property (fun a b : Property => a.price ≤ b.price) :=
      ⟨fun a b => le_total a.price b.price⟩
    haveI : IsTrans Property (fun a b : Property => a.price ≤ b.price) :=
      ⟨fun _ _ _ h1 h2 => le_trans h1 h2⟩
    have hred : getProperties props (some c) sortParam offsetParam =
        (((props.filter (fun p => p.capacity == c)).insertionSort
            (fun a b : Property => a.price ≤ b.price)).drop
          ((offsetParam.getD 0) * 6)).take 6 := by
      simp [getProperties, hs]
    rw [hred]
    refine ⟨?_, List.length_take_le _ _, fun heq => absurd heq hs, fun _ => ?_⟩
    · intro p hp
      have hmem := ((List.take_sublist _ _).trans (List.drop_sublist _ _)).subset hp
      rw [List.mem_insertionSort, List.mem_filter] at hmem
      exact ⟨hmem.1, by simpa using hmem.2⟩
    · exact (List.sorted_insertionSort _ _).sublist
        ((List.take_sublist _ _).trans (List.drop_sublist _ _))

/-- C4 witness: three concrete properties, capacity filter 4, sort=desc,
offset 0: only the capacity-4 ones from the store, at most 6, sorted by
price descending. -/
theorem properties_filter_sort_page_witness :
    (∀ p ∈ getProperties
        [{ id := 1, name := "a", address := "x", city := "u", price := 100, capacity := 4 },
         { id := 2, name := "b", address := "y", city := "v", price := 250, capacity := 4 },
         { id := 3, name := "c", address := "z", city := "w", price := 50, capacity := 2 }]
        (some 4) (some "desc") (some 0),
       p ∈ [{ id := 1, name := "a", address := "x", city := "u", price := 100, capacity := 4 },
            { id := 2, name := "b", address := "y", city := "v", price := 250, capacity := 4 },
            { id := 3, name := "c", address := "z", city := "w", price := 50, capacity := 2 }] ∧
         p.capacity = 4) ∧
    (getProperties
        [{ id := 1, name := "a", address := "x", city := "u", price := 100, capacity := 4 },
         { id := 2, name := "b", address := "y", city := "v", price := 250, capacity := 4 },
         { id := 3, name := "c", address := "z", city := "w", price := 50, capacity := 2 }]
        (some 4) (some "desc") (some 0)).length ≤ 6 ∧
    (getProperties
        [{ id := 1, name := "a", address := "x", city := "u", price := 100, capacity := 4 },
         { id := 2, name := "b", address := "y", city := "v", price := 250, capacity := 4 },
         { id := 3, name := "c", address := "z", city := "w", price := 50, capacity := 2 }]
        (some 4) (some "desc") (some 0)).Sorted (fun a b => b.price ≤ a.price) :=
  ⟨(properties_filter_sort_page _ 4 (some "desc") (some 0)).1,
   (properties_filter_sort_page _ 4 (some "desc") (some 0)).2.1,
   (properties_filter_sort_page _ 4 (some "desc") (some 0)).2.2.1 rfl⟩

end VacationBooking
